import Mathlib

/-!
Shallow embedding of the altair_back ingestion-and-classification services.

Each definition models one Python function of the repository; the source
file and line ranges are named in the doc comments.  Machine floats
(classification confidence) are modelled as rationals, Python dicts keyed
by user id as association lists, Python sets as duplicate-free lists, and
calls to external services (OpenAI, Google, Telegram, the database) as
explicit outcome parameters supplied to the embedded function.  String
operations are implemented by structural recursion on the character list
of the string so that every definition evaluates inside the kernel.
-/

/-- Characterwise string length, Python `len` on `str`. -/
def strLen (s : String) : Nat :=
  s.data.length

/-- Characterwise prefix of length `n`, Python slicing `s[:n]`. -/
def strTake (s : String) (n : Nat) : String :=
  ⟨s.data.take n⟩

/-- Python `str.lower()` (ASCII-faithful). -/
def strToLower (s : String) : String :=
  ⟨s.data.map Char.toLower⟩

/-- Helper for Python `str.split()`: walk the characters, emitting the
accumulated word (held reversed) at whitespace boundaries and at the end,
so that runs of whitespace produce no empty pieces. -/
def splitWsAux : List Char → List Char → List String
  | [], acc => if acc.isEmpty then [] else [⟨acc.reverse⟩]
  | c :: cs, acc =>
      if c.isWhitespace then
        if acc.isEmpty then splitWsAux cs [] else ⟨acc.reverse⟩ :: splitWsAux cs []
      else splitWsAux cs (c :: acc)

/-- Python `str.split()` with no argument: split on whitespace runs and
drop empty pieces (src/app/services/message_classifier.py lines 170, 184). -/
def pySplit (s : String) : List String :=
  splitWsAux s.data []

/-- Python `sep.join(words)`. -/
def joinWith (sep : String) : List String → String
  | [] => ("" : String)
  | [w] => w
  | w :: ws => w ++ sep ++ joinWith sep ws

/-- Is `p` an infix of the second list?  Helper for the Python `in`
substring test. -/
def charInfixOf (p : List Char) : List Char → Bool
  | [] => p.isEmpty
  | c :: rest => p.isPrefixOf (c :: rest) || charInfixOf p rest

/-- Python `pat in s` substring test on strings
(src/app/services/message_classifier.py line 158). -/
def strContains (s pat : String) : Bool :=
  charInfixOf pat.data s.data

/-- The normalized classification record produced by
`MessageClassifier` (src/app/services/message_classifier.py):
the dictionary shape shared by `_validate_classification_result` and
`_fallback_classification`.  Confidence is modelled as a rational. -/
structure Classification where
  title : String
  category : String
  confidence : ℚ
  priority : String
  action_required : Bool
  summary : String
  dates : List String
  times : List String
  contact : Option String
  projects : List String
  keywords : List String
deriving Repr, DecidableEq

/-- The `entities` sub-object of a parsed model response; `none` fields model
absent JSON keys (src/app/services/message_classifier.py lines 110-116). -/
structure RawEntities where
  dates : Option (List String)
  times : Option (List String)
  contact : Option String
  projects : Option (List String)
  keywords : Option (List String)
deriving Repr, DecidableEq

/-- An empty `entities` object, the `result.get("entities", {})` default. -/
def emptyRawEntities : RawEntities :=
  { dates := none, times := none, contact := none
    projects := none, keywords := none }

/-- A well-typed parsed model response; `none` fields model absent JSON keys
(defaults applied by `.get`).  A response whose fields have the wrong JSON
type makes the Python validation raise and is represented by the
`illTypedOutput` outcome instead (src/app/services/message_classifier.py
lines 90-100). -/
structure RawResult where
  title : Option String
  category : Option String
  confidence : Option ℚ
  priority : Option String
  action_required : Option Bool
  summary : Option String
  entities : Option RawEntities
deriving Repr, DecidableEq

/-- `MessageClassifier._generate_fallback_title`
(src/app/services/message_classifier.py lines 134-142). -/
def generate_fallback_title (category : String) : String :=
  if category = ("meeting" : String) then ("Meeting Item" : String)
  else if category = ("task" : String) then ("Task Item" : String)
  else if category = ("information" : String) then ("Information Item" : String)
  else if category = ("thought" : String) then ("Thought Item" : String)
  else ("New Item" : String)

/-- The fixed category vocabulary
(src/app/services/message_classifier.py line 123). -/
def valid_categories : List String :=
  ["meeting", "task", "information", "thought"]

/-- The fixed priority vocabulary
(src/app/services/message_classifier.py line 128). -/
def valid_priorities : List String :=
  ["low", "medium", "high"]

/-- `MessageClassifier._validate_classification_result`
(src/app/services/message_classifier.py lines 102-132).  Note the fallback
title is derived from the raw, pre-coercion category, exactly as in the
source (lines 106-107). -/
def validate_classification_result (r : RawResult) : Classification :=
  let rawTitle := strTake (r.title.getD ("" : String)) 50
  let rawCategory := r.category.getD ("information" : String)
  let rawPriority := r.priority.getD ("medium" : String)
  let ents := r.entities.getD emptyRawEntities
  { title := if rawTitle = ("" : String) then generate_fallback_title rawCategory else rawTitle
    category := if rawCategory ∈ valid_categories then rawCategory else ("information" : String)
    confidence := max 0 (min 1 (r.confidence.getD (1 / 2)))
    priority := if rawPriority ∈ valid_priorities then rawPriority else ("medium" : String)
    action_required := r.action_required.getD false
    summary := strTake (r.summary.getD ("" : String)) 500
    dates := ents.dates.getD []
    times := ents.times.getD []
    contact := ents.contact
    projects := ents.projects.getD []
    keywords := ents.keywords.getD [] }

/-- The three keyword vocabularies of the fallback classifier
(src/app/services/message_classifier.py lines 154-156). -/
def meeting_keywords : List String :=
  ["meeting", "call", "appointment", "schedule", "meet", "conference"]

def task_keywords : List String :=
  ["task", "todo", "deadline", "complete", "finish", "do", "need to", "must", "should"]

def thought_keywords : List String :=
  ["idea", "think", "suggest", "propose", "maybe", "consider", "what if"]

/-- The category/priority/action triple chosen by the keyword scan of
`MessageClassifier._fallback_classification`
(src/app/services/message_classifier.py lines 149-167). -/
def fallback_cpa (text_lower : String) : String × String × Bool :=
  if meeting_keywords.any (fun w => strContains text_lower w) then
    (("meeting" : String), ("high" : String), true)
  else if task_keywords.any (fun w => strContains text_lower w) then
    (("task" : String), ("high" : String), true)
  else if thought_keywords.any (fun w => strContains text_lower w) then
    (("thought" : String), ("low" : String), false)
  else
    (("information" : String), ("medium" : String), false)

/-- `MessageClassifier._fallback_classification`
(src/app/services/message_classifier.py lines 144-189). -/
def fallback_classification (text : String) : Classification :=
  let text_lower := strToLower text
  let cpa := fallback_cpa text_lower
  let joined := joinWith (" " : String) ((pySplit text).take 6)
  let fbTitle := if strLen joined > 50 then strTake joined 47 ++ ("..." : String) else joined
  { title := if fbTitle = ("" : String) then generate_fallback_title cpa.1 else fbTitle
    category := cpa.1
    confidence := 3 / 5
    priority := cpa.2.1
    action_required := cpa.2.2
    summary := if strLen text > 100 then strTake text 100 ++ ("..." : String) else text
    dates := []
    times := []
    contact := none
    projects := []
    keywords := (pySplit text_lower).take 5 }

/-- The possible outcomes of the external model call inside
`MessageClassifier.classify_message` (src/app/services/message_classifier.py
lines 31-100): missing API key, transport/API exception, unparseable JSON,
parsed JSON whose field types make the validation itself raise (caught by
the blanket `except` on line 98), or a well-typed parsed response. -/
inductive ModelOutcome where
  | noClient
  | transportError
  | jsonDecodeError
  | illTypedOutput
  | parsed (r : RawResult)
deriving Repr, DecidableEq

/-- `MessageClassifier.classify_message`
(src/app/services/message_classifier.py lines 20-100): every failure
outcome is answered with the local fallback; a parsed response is
validated and normalized. -/
def classify_message (text : String) (o : ModelOutcome) : Classification :=
  match o with
  | ModelOutcome.parsed r => validate_classification_result r
  | _ => fallback_classification text

lemma fallback_cpa_mem (t : String) :
    (fallback_cpa t).1 ∈ valid_categories ∧ (fallback_cpa t).2.1 ∈ valid_priorities := by
  unfold fallback_cpa
  split
  · exact ⟨by simp [valid_categories], by simp [valid_priorities]⟩
  · split
    · exact ⟨by simp [valid_categories], by simp [valid_priorities]⟩
    · split
      · exact ⟨by simp [valid_categories], by simp [valid_priorities]⟩
      · exact ⟨by simp [valid_categories], by simp [valid_priorities]⟩

lemma generate_fallback_title_ne_empty (c : String) :
    generate_fallback_title c ≠ ("" : String) := by
  unfold generate_fallback_title
  repeat' split
  all_goals decide

lemma validate_title_ne_empty (r : RawResult) :
    (validate_classification_result r).title ≠ ("" : String) := by
  show (if strTake (r.title.getD ("" : String)) 50 = ("" : String)
        then generate_fallback_title (r.category.getD ("information" : String))
        else strTake (r.title.getD ("" : String)) 50) ≠ ("" : String)
  split
  · exact generate_fallback_title_ne_empty _
  · assumption

lemma fallback_title_ne_empty (text : String) :
    (fallback_classification text).title ≠ ("" : String) := by
  simp only [fallback_classification]
  split <;> split
  · exact generate_fallback_title_ne_empty _
  · assumption
  · exact generate_fallback_title_ne_empty _
  · assumption

/-- Claim C1: for every input text and source and every raw model outcome
(including malformed or out-of-range responses), the record returned by
`classify_message` has confidence in the interval from 0 to 1, category in
the fixed four-element vocabulary, and priority in the fixed three-element
vocabulary. -/
theorem classify_message_output_ranges (text : String) (o : ModelOutcome) :
    0 ≤ (classify_message text o).confidence ∧
    (classify_message text o).confidence ≤ 1 ∧
    (classify_message text o).category ∈ valid_categories ∧
    (classify_message text o).priority ∈ valid_priorities := by
  cases o with
  | parsed r =>
      refine ⟨le_max_left 0 _, ?_, ?_, ?_⟩
      · exact max_le (by norm_num) (min_le_left 1 _)
      · show (if (r.category.getD ("information" : String)) ∈ valid_categories
              then r.category.getD ("information" : String)
              else ("information" : String)) ∈ valid_categories
        split
        · assumption
        · simp [valid_categories]
      · show (if (r.priority.getD ("medium" : String)) ∈ valid_priorities
              then r.priority.getD ("medium" : String)
              else ("medium" : String)) ∈ valid_priorities
        split
        · assumption
        · simp [valid_priorities]
  | noClient =>
      exact ⟨by norm_num [classify_message, fallback_classification],
             by norm_num [classify_message, fallback_classification],
             (fallback_cpa_mem (strToLower text)).1, (fallback_cpa_mem (strToLower text)).2⟩
  | transportError =>
      exact ⟨by norm_num [classify_message, fallback_classification],
             by norm_num [classify_message, fallback_classification],
             (fallback_cpa_mem (strToLower text)).1, (fallback_cpa_mem (strToLower text)).2⟩
  | jsonDecodeError =>
      exact ⟨by norm_num [classify_message, fallback_classification],
             by norm_num [classify_message, fallback_classification],
             (fallback_cpa_mem (strToLower text)).1, (fallback_cpa_mem (strToLower text)).2⟩
  | illTypedOutput =>
      exact ⟨by norm_num [classify_message, fallback_classification],
             by norm_num [classify_message, fallback_classification],
             (fallback_cpa_mem (strToLower text)).1, (fallback_cpa_mem (strToLower text)).2⟩

/-- Claim C2: `classify_message` never raises: on each underlying failure
outcome (missing API credentials, transport error, unparseable model
output, or model output whose field types break validation) it returns
exactly the locally computed keyword-based fallback classification. -/
theorem classify_message_failure_returns_fallback (text : String) :
    classify_message text ModelOutcome.noClient = fallback_classification text ∧
    classify_message text ModelOutcome.transportError = fallback_classification text ∧
    classify_message text ModelOutcome.jsonDecodeError = fallback_classification text ∧
    classify_message text ModelOutcome.illTypedOutput = fallback_classification text :=
  ⟨rfl, rfl, rfl, rfl⟩

/-- Claim C10: the title of every record returned by `classify_message` is a
non-empty string; when the model supplies no title or an empty one, the
category-derived default from `generate_fallback_title` is substituted,
and in fallback mode an empty input text likewise yields the
category-derived default ("Information Item" for empty text). -/
theorem classify_message_title_nonempty :
    (∀ (text : String) (o : ModelOutcome),
        (classify_message text o).title ≠ ("" : String)) ∧
    (∀ r : RawResult,
        (validate_classification_result { r with title := none }).title
          = generate_fallback_title (r.category.getD ("information" : String)) ∧
        (validate_classification_result { r with title := some ("" : String) }).title
          = generate_fallback_title (r.category.getD ("information" : String))) ∧
    (fallback_classification ("" : String)).title = ("Information Item" : String) := by
  refine ⟨?_, ?_, by decide⟩
  · intro text o
    cases o with
    | parsed r => exact validate_title_ne_empty r
    | noClient => exact fallback_title_ne_empty text
    | transportError => exact fallback_title_ne_empty text
    | jsonDecodeError => exact fallback_title_ne_empty text
    | illTypedOutput => exact fallback_title_ne_empty text
  · intro r
    exact ⟨rfl, rfl⟩

/-- One header object of a Gmail message payload
(src/app/services/gmail.py lines 231-245). -/
structure GmailHeader where
  name : String
  value : String
deriving Repr, DecidableEq

/-- One part of a multipart Gmail payload; `bodyData` models
`part.get("body", {}).get("data", "")` with `none` for an absent field.
The base64url transport encoding is a bijection on the decoded text, so the
embedding stores part data already decoded
(src/app/services/gmail.py lines 249-256). -/
structure GmailPart where
  mimeType : String
  bodyData : Option String
deriving Repr, DecidableEq

/-- The payload of a Gmail API message (src/app/services/gmail.py
lines 228-262); `parts = none` models a single-part message (no `parts`
key), `bodyData` as in `GmailPart`. -/
structure GmailPayload where
  headers : List GmailHeader
  mimeType : String
  bodyData : Option String
  parts : Option (List GmailPart)
deriving Repr, DecidableEq

/-- A raw Gmail API message as consumed by the poll workers;
`id` is `message.get("id")` with `none` for an absent key
(src/app/services/gmail.py line 269, gmail_background_worker.py line 101). -/
structure GmailMessage where
  id : Option String
  threadId : Option String
  payload : GmailPayload
deriving Repr, DecidableEq

/-- The dictionary returned by `GmailService.extract_message_content`
(src/app/services/gmail.py lines 264-271). -/
structure EmailContent where
  subject : String
  sender : String
  date : String
  body : String
  message_id : String
  thread_id : String
deriving Repr, DecidableEq

/-- The header scan of `extract_message_content`: the loop assigns on a
case-insensitive name match, so the last matching header wins
(src/app/services/gmail.py lines 234-245). -/
def extract_headers (hs : List GmailHeader) : String × String × String :=
  hs.foldl
    (fun acc h =>
      let n := strToLower h.name
      if n = ("subject" : String) then (h.value, acc.2.1, acc.2.2)
      else if n = ("from" : String) then (acc.1, h.value, acc.2.2)
      else if n = ("date" : String) then (acc.1, acc.2.1, h.value)
      else acc)
    (("" : String), ("" : String), ("" : String))

/-- The multipart body scan: the first `text/plain` part with non-empty
data supplies the body; a `text/plain` part with empty data does not stop
the scan, because the `break` sits inside the `if body_data` branch
(src/app/services/gmail.py lines 249-256). -/
def first_text_plain_body : List GmailPart → String
  | [] => ("" : String)
  | p :: rest =>
      if p.mimeType = ("text/plain" : String) then
        let d := p.bodyData.getD ("" : String)
        if d = ("" : String) then first_text_plain_body rest else d
      else first_text_plain_body rest

/-- `GmailService.extract_message_content`
(src/app/services/gmail.py lines 228-271). -/
def extract_message_content (m : GmailMessage) : EmailContent :=
  let hdr := extract_headers m.payload.headers
  let body :=
    match m.payload.parts with
    | some parts => first_text_plain_body parts
    | none =>
        if m.payload.mimeType = ("text/plain" : String) then
          m.payload.bodyData.getD ("" : String)
        else ("" : String)
  { subject := hdr.1, sender := hdr.2.1, date := hdr.2.2, body := body
    message_id := m.id.getD ("" : String), thread_id := m.threadId.getD ("" : String) }

/-- The per-user state of one Gmail background poll worker:
`processed` is the dedup set `processed_messages[user_id]` (a Python set,
modelled as the list of its elements, grown only through the guarded
insertion below), and `createdIds` records the remote message id of each
Item persisted during the window under observation
(src/app/services/gmail_background_worker.py lines 89, 100-106). -/
structure PollState where
  processed : List String
  createdIds : List String
deriving Repr, DecidableEq

/-- The body of the per-message loop of `poll_user_gmail`
(src/app/services/gmail_background_worker.py lines 100-106): skip when the
id is falsy (absent or empty) or already in the dedup set; otherwise
extract, and only when the extracted body is non-empty persist an Item and
add the id to the dedup set.  Persistence success is assumed here; a
failing write is analysed separately with the claim on error propagation. -/
def worker_process_message (s : PollState) (m : GmailMessage) : PollState :=
  match m.id with
  | none => s
  | some mid =>
      if mid = ("" : String) then s
      else if mid ∈ s.processed then s
      else if (extract_message_content m).body = ("" : String) then s
      else { processed := mid :: s.processed, createdIds := s.createdIds ++ [mid] }

/-- The dedup-set cleanup after the message loop
(src/app/services/gmail_background_worker.py lines 108-112):
`set(list(s)[-500:])` keeps 500 of the more-than-1000 elements.  Python set
iteration order is unspecified, so the embedding keeps a representative
500 elements; only the resulting cardinality is specified behaviour. -/
def worker_cleanup (processed : List String) : List String :=
  if processed.length > 1000 then processed.take 500 else processed

/-- One full poll cycle of `poll_user_gmail`: process every fetched
message, then run the cleanup
(src/app/services/gmail_background_worker.py lines 91-114). -/
def worker_poll_cycle (s : PollState) (msgs : List GmailMessage) : PollState :=
  let s2 := msgs.foldl worker_process_message s
  { s2 with processed := worker_cleanup s2.processed }

/-- A single-part plain-text Gmail message, for concrete scenarios. -/
def mkTextMsg (mid bodyText : String) : GmailMessage :=
  { id := some mid, threadId := some mid
    payload := { headers := [], mimeType := ("text/plain" : String)
                 bodyData := some bodyText, parts := none } }

lemma worker_step_dedup_invariant (x : String) (m : GmailMessage) (s : PollState)
    (h1 : s.createdIds.count x ≤ 1)
    (h2 : 1 ≤ s.createdIds.count x → x ∈ s.processed) :
    (worker_process_message s m).createdIds.count x ≤ 1 ∧
    (1 ≤ (worker_process_message s m).createdIds.count x →
      x ∈ (worker_process_message s m).processed) := by
  cases hid : m.id with
  | none =>
      have hred : worker_process_message s m = s := by
        unfold worker_process_message
        rw [hid]
      rw [hred]
      exact ⟨h1, h2⟩
  | some mid =>
      have hred :
          worker_process_message s m
            = (if mid = ("" : String) then s
               else if mid ∈ s.processed then s
               else if (extract_message_content m).body = ("" : String) then s
               else { processed := mid :: s.processed
                      createdIds := s.createdIds ++ [mid] }) := by
        unfold worker_process_message
        rw [hid]
      rw [hred]
      by_cases hempty : mid = ("" : String)
      · rw [if_pos hempty]
        exact ⟨h1, h2⟩
      · rw [if_neg hempty]
        by_cases hmem : mid ∈ s.processed
        · rw [if_pos hmem]
          exact ⟨h1, h2⟩
        · rw [if_neg hmem]
          by_cases hbody : (extract_message_content m).body = ("" : String)
          · rw [if_pos hbody]
            exact ⟨h1, h2⟩
          · rw [if_neg hbody]
            by_cases hx : x = mid
            · subst hx
              have hzero : s.createdIds.count x = 0 := by
                by_contra hne
                exact hmem (h2 (Nat.one_le_iff_ne_zero.mpr hne))
              constructor
              · simp [List.count_append, hzero]
              · intro hcnt
                exact List.mem_cons_self x s.processed
            · have hcnt : (s.createdIds ++ [mid]).count x = s.createdIds.count x := by
                simp [List.count_append, List.count_cons, hx]
              constructor
              · simpa [hcnt] using h1
              · intro hge
                rw [hcnt] at hge
                exact List.mem_cons_of_mem mid (h2 hge)

lemma worker_foldl_dedup_invariant (x : String) (ms : List GmailMessage) (s : PollState)
    (h1 : s.createdIds.count x ≤ 1)
    (h2 : 1 ≤ s.createdIds.count x → x ∈ s.processed) :
    (ms.foldl worker_process_message s).createdIds.count x ≤ 1 := by
  induction ms generalizing s with
  | nil => exact h1
  | cons m rest ih =>
      have hstep := worker_step_dedup_invariant x m s h1 h2
      exact ih (worker_process_message s m) hstep.1 hstep.2

/-- The poll cycle of the spec example: three unread messages with distinct
ids, of which the second id is already in the dedup set. -/
def demo_cycle_msgs : List GmailMessage :=
  [mkTextMsg ("ma") ("hello one"), mkTextMsg ("mb") ("hello two"),
   mkTextMsg ("mc") ("hello three")]

/-- Claim C3: within one poll worker's dedup window, processing the same
remote message id any number of times yields at most one persisted Item
per id; and a poll cycle over 3 messages of which exactly one id is
already in the dedup set creates exactly 2 new Items. -/
theorem worker_dedup_idempotent :
    (∀ (msgs : List GmailMessage) (processed0 : List String) (x : String),
        ((msgs.foldl worker_process_message
            { processed := processed0, createdIds := [] }).createdIds.count x ≤ 1)) ∧
    (demo_cycle_msgs.foldl worker_process_message
        { processed := [("mb" : String)], createdIds := [] }).createdIds
      = [("ma" : String), ("mc" : String)] := by
  constructor
  · intro msgs processed0 x
    exact worker_foldl_dedup_invariant x msgs
      { processed := processed0, createdIds := [] }
      (by simp) (by simp)
  · decide

/-- A dedup set already holding 1000 distinct processed message ids. -/
def thousand_ids : List String :=
  (List.range 1000).map (fun n => Nat.repr n)

set_option maxRecDepth 20000 in
/-- Counterexample to claim C4: the cleanup check of `poll_user_gmail` runs
only after the whole message loop
(src/app/services/gmail_background_worker.py lines 100-112), so a cycle
that starts with the dedup set exactly at the 1000-entry cap and receives
two fresh non-empty messages performs two insertions, reaching 1002
entries, before any trim happens — exceeding the cap by more than one
insertion. -/
theorem worker_dedup_cap_overshoot :
    thousand_ids.length = 1000 ∧
    (([mkTextMsg ("xa") ("fresh body one"), mkTextMsg ("xb") ("fresh body two")].foldl
        worker_process_message
        { processed := thousand_ids, createdIds := [] }).processed.length = 1002) := by
  constructor
  · decide
  · decide

lemma worker_step_processed_le (s : PollState) (m : GmailMessage) :
    (worker_process_message s m).processed.length ≤ s.processed.length + 1 := by
  obtain ⟨mido, tid, pl⟩ := m
  cases mido with
  | none =>
      show s.processed.length ≤ s.processed.length + 1
      exact Nat.le_succ _
  | some v =>
      show (if v = ("" : String) then s
            else if v ∈ s.processed then s
            else if (extract_message_content ⟨some v, tid, pl⟩).body = ("" : String) then s
            else { processed := v :: s.processed
                   createdIds := s.createdIds ++ [v] }).processed.length
           ≤ s.processed.length + 1
      repeat' split
      · exact Nat.le_succ _
      · exact Nat.le_succ _
      · exact Nat.le_succ _
      · simp

lemma worker_foldl_processed_le (ms : List GmailMessage) (s : PollState) :
    (ms.foldl worker_process_message s).processed.length ≤ s.processed.length + ms.length := by
  induction ms generalizing s with
  | nil => simp
  | cons m rest ih =>
      have h1 := worker_step_processed_le s m
      have h2 := ih (worker_process_message s m)
      simp only [List.foldl_cons, List.length_cons]
      omega

lemma worker_cleanup_length (p : List String) :
    (worker_cleanup p).length = if p.length > 1000 then min 500 p.length else p.length := by
  unfold worker_cleanup
  split <;> simp [List.length_take]

/-- Claim C4, amended: within one poll cycle the dedup set can exceed the
1000-entry cap by up to the cycle's message count (at most 10, the
`max_results` of the unread query) before the trim check runs; the
post-cycle cleanup leaves at most 1000 entries, and whenever the cap was
exceeded it trims the set to exactly 500 entries (which 500 depends on the
unspecified Python set iteration order). -/
theorem worker_dedup_cap_bound (msgs : List GmailMessage) (p0 : List String)
    (hp : p0.length ≤ 1000) (hm : msgs.length ≤ 10) :
    ((msgs.foldl worker_process_message
        { processed := p0, createdIds := [] }).processed.length ≤ 1000 + msgs.length) ∧
    ((msgs.foldl worker_process_message
        { processed := p0, createdIds := [] }).processed.length ≤ 1010) ∧
    ((worker_poll_cycle { processed := p0, createdIds := [] } msgs).processed.length ≤ 1000) ∧
    (1000 < (msgs.foldl worker_process_message
        { processed := p0, createdIds := [] }).processed.length →
      (worker_poll_cycle { processed := p0, createdIds := [] } msgs).processed.length = 500) := by
  have hlen := worker_foldl_processed_le msgs { processed := p0, createdIds := [] }
  dsimp only at hlen
  have hc := worker_cleanup_length
    (msgs.foldl worker_process_message { processed := p0, createdIds := [] }).processed
  refine ⟨by omega, by omega, ?_, ?_⟩
  · show (worker_cleanup (msgs.foldl worker_process_message
        { processed := p0, createdIds := [] }).processed).length ≤ 1000
    rw [hc]
    split
    · omega
    · omega
  · intro hgt
    show (worker_cleanup (msgs.foldl worker_process_message
        { processed := p0, createdIds := [] }).processed).length = 500
    rw [hc, if_pos hgt]
    omega

/-- Witness for `worker_dedup_cap_bound` at the empty cycle. -/
theorem worker_dedup_cap_bound_witness :
    (([] : List String).length ≤ 1000) ∧ (([] : List GmailMessage).length ≤ 10) ∧
    ((([] : List GmailMessage).foldl worker_process_message
        { processed := ([] : List String), createdIds := [] }).processed.length ≤ 1010) :=
  ⟨by decide, by decide, (worker_dedup_cap_bound [] [] (by decide) (by decide)).2.1⟩

/-- The Item fields assembled by `GmailService.process_and_classify_email`
(src/app/services/gmail.py lines 278-303): title from the subject with a
"No Subject" default, description truncated to 1000 characters, original
text from the subject/sender/body framing. -/
structure ItemM where
  title : String
  description : String
  original_text : String
deriving Repr, DecidableEq

/-- The combined text classified for an email
(src/app/services/gmail.py line 280). -/
def email_full_text (c : EmailContent) : String :=
  ("Subject: " : String) ++ c.subject ++ ("\n\nFrom: " : String) ++ c.sender
    ++ ("\n\n" : String) ++ c.body

/-- The Item created for an email on the success path of
`process_and_classify_email` (src/app/services/gmail.py lines 289-310). -/
def email_item (c : EmailContent) : ItemM :=
  { title := if c.subject = ("" : String) then ("No Subject" : String) else c.subject
    description := strTake c.body 1000
    original_text := email_full_text c }

/-- The per-cycle message loop of `GmailService._poll_user_messages`
(src/app/services/gmail.py lines 82-91): every fetched message is
extracted and handed to `process_and_classify_email` with no guard on the
extracted body, so (classification and persistence succeeding) one Item is
created per fetched message. -/
def service_poll_items (msgs : List GmailMessage) : List ItemM :=
  msgs.map (fun m => email_item (extract_message_content m))

/-- A fetched email whose only part is a PDF attachment: no plain-text
part exists, so the extracted body is empty. -/
def pdfOnlyMsg : GmailMessage :=
  { id := some ("m1" : String), threadId := some ("t1" : String)
    payload := { headers := [{ name := ("Subject" : String), value := ("Invoice" : String) }]
                 mimeType := ("multipart/mixed" : String), bodyData := none
                 parts := some [{ mimeType := ("application/pdf" : String)
                                  bodyData := some ("JVBERi0" : String) }] } }

/-- Counterexample to claim C9: `pdfOnlyMsg` has an empty extracted body,
yet the polling loop of `GmailService._poll_user_messages` creates one
Item for it — the empty-body skip exists only in the background worker
(src/app/services/gmail_background_worker.py line 104), not in
`_poll_user_messages` (src/app/services/gmail.py lines 82-91). -/
theorem service_path_persists_empty_body :
    (extract_message_content pdfOnlyMsg).body = ("" : String) ∧
    (service_poll_items [pdfOnlyMsg]).length = 1 ∧
    (service_poll_items [pdfOnlyMsg]).map ItemM.title = [("Invoice" : String)] := by
  refine ⟨by decide, by decide, by decide⟩

/-- Claim C9, amended: an email whose extracted body is empty is skipped
(no Item, no dedup-set insertion) by the background worker's poll loop,
but the polling loop inside `GmailService._poll_user_messages` processes
every fetched message regardless of body emptiness and creates an Item
even when the body is empty. -/
theorem empty_body_skipped_only_in_worker (m : GmailMessage) (s : PollState)
    (hb : (extract_message_content m).body = ("" : String)) :
    worker_process_message s m = s ∧ (service_poll_items [m]).length = 1 := by
  constructor
  · obtain ⟨mido, tid, pl⟩ := m
    cases mido with
    | none => rfl
    | some v =>
        show (if v = ("" : String) then s
              else if v ∈ s.processed then s
              else if (extract_message_content ⟨some v, tid, pl⟩).body = ("" : String) then s
              else { processed := v :: s.processed
                     createdIds := s.createdIds ++ [v] }) = s
        by_cases hv : v = ("" : String)
        · rw [if_pos hv]
        · rw [if_neg hv]
          by_cases hmem : v ∈ s.processed
          · rw [if_pos hmem]
          · rw [if_neg hmem, if_pos hb]
  · rfl

/-- Witness for `empty_body_skipped_only_in_worker` at the concrete
PDF-only email and the empty worker state. -/
theorem empty_body_skipped_only_in_worker_witness :
    ((extract_message_content pdfOnlyMsg).body = ("" : String)) ∧
    (worker_process_message { processed := [], createdIds := [] } pdfOnlyMsg
        = { processed := [], createdIds := [] }) ∧
    ((service_poll_items [pdfOnlyMsg]).length = 1) :=
  ⟨by decide,
   (empty_body_skipped_only_in_worker pdfOnlyMsg
      { processed := [], createdIds := [] } (by decide)).1,
   (empty_body_skipped_only_in_worker pdfOnlyMsg
      { processed := [], createdIds := [] } (by decide)).2⟩

/-- `GmailService.process_and_classify_email`
(src/app/services/gmail.py lines 273-317): the classification and the
atomic `create_item_with_classification` write sit inside one
`try ... except Exception` whose handler logs and returns None
(lines 315-317).  The atomic write is modelled as an explicit outcome:
`Except.error` is a raising write, `Except.ok` a successful one; the
returned `Except` is the outcome of the enclosing operation itself. -/
def process_and_classify_email (persist : Except String ItemM) :
    Except String (Option ItemM) :=
  match persist with
  | Except.ok it => Except.ok (some it)
  | Except.error _ => Except.ok none

/-- `TelegramClientService.classify_and_save_message`
(src/app/services/telegram.py lines 252-284): classification failures are
caught by the inner try (lines 257-264); the database write is guarded by
the outer `except Exception` (lines 283-284), which logs and falls through
to the implicit None return — the function returns None on every path. -/
def classify_and_save_message (persist : Except String Unit) :
    Except String Unit :=
  match persist with
  | Except.ok _ => Except.ok ()
  | Except.error _ => Except.ok ()

/-- Counterexample to claim C5: a raising atomic write ("db write failed")
makes both enclosing message-processing operations return a normal
success/None result instead of propagating the error — the opposite of
"raises rather than returning a success/None result". -/
theorem persistence_error_swallowed_concrete :
    process_and_classify_email (Except.error ("db write failed" : String))
      = Except.ok none ∧
    classify_and_save_message (Except.error ("db write failed" : String))
      = Except.ok () ∧
    process_and_classify_email (Except.error ("db write failed" : String))
      ≠ Except.error ("db write failed" : String) :=
  ⟨rfl, rfl, by intro h; exact Except.noConfusion h⟩

/-- Claim C5, amended: a failing atomic create-item-with-classification
write is caught inside `process_and_classify_email` and
`classify_and_save_message`; the error is logged and swallowed and each
enclosing message-processing operation returns a success/None result — no
persistence error ever propagates to the caller. -/
theorem persistence_error_not_propagated (e : String) :
    process_and_classify_email (Except.error e) = Except.ok none ∧
    classify_and_save_message (Except.error e) = Except.ok () :=
  ⟨rfl, rfl⟩

/-- The poller-relevant state of the running system:
`connected` is the set of user ids owning a google OAuth row with an
access token (the unread-query population of `_sync_user_tasks`,
src/app/services/gmail_background_worker.py lines 61-68), `workerTasks`
the key set of `GmailBackgroundWorker.worker_tasks` (line 16), and
`servicePolling` the key set of `GmailService._polling_tasks`
(src/app/services/gmail.py line 24).  Each dict/set is modelled as the
list of its keys. -/
structure SysState where
  connected : List String
  workerTasks : List String
  servicePolling : List String
deriving Repr, DecidableEq

/-- The empty starting state. -/
def sys_init : SysState :=
  { connected := [], workerTasks := [], servicePolling := [] }

/-- `create_or_update_oauth_account` (src/app/services/oauth.py
lines 100-160): an existing account is updated in place (no auto-start);
a new account is inserted and `auto_start_polling_for_new_user` →
`start_polling_for_user` (src/app/services/gmail.py lines 27-53) stops any
existing GmailService polling task for the user and starts a fresh one. -/
def oauth_connect (s : SysState) (u : String) : SysState :=
  if u ∈ s.connected then s
  else { connected := u :: s.connected
         workerTasks := s.workerTasks
         servicePolling := u :: s.servicePolling.erase u }

/-- The disconnect route `DELETE /google/accounts/{account_id}`
(src/app/api/routes/oauth.py lines 99-119): it deletes the OAuth row and
touches neither task registry. -/
def disconnect_account (s : SysState) (u : String) : SysState :=
  { s with connected := s.connected.erase u }

/-- `GmailBackgroundWorker._sync_user_tasks`
(src/app/services/gmail_background_worker.py lines 58-77): start a worker
for each connected user without one (`_start_user_task` returns early when
the key is present, line 84), stop the worker of each user no longer
connected (`_stop_user_task`, lines 126-138). -/
def sync_user_tasks (s : SysState) : SysState :=
  { s with workerTasks :=
      s.workerTasks.filter (fun v => decide (v ∈ s.connected))
        ++ s.connected.filter (fun v => decide (v ∉ s.workerTasks)) }

/-- `GmailService.get_user_messages` (src/app/services/gmail.py
lines 146-156) returns the empty list when the user has no valid OAuth
account, so a worker polling for a disconnected user fetches nothing. -/
def gmail_fetch (s : SysState) (u : String) (unread : List GmailMessage) :
    List GmailMessage :=
  if u ∈ s.connected then unread else []

/-- States reachable through OAuth connects, account disconnects and
supervisor resynchronizations. -/
inductive SysReach : SysState → Prop where
  | init : SysReach sys_init
  | connect (u : String) (s : SysState) : SysReach s → SysReach (oauth_connect s u)
  | disconnect (u : String) (s : SysState) : SysReach s → SysReach (disconnect_account s u)
  | sync (s : SysState) : SysReach s → SysReach (sync_user_tasks s)

lemma sys_reach_nodup (s : SysState) (h : SysReach s) :
    s.connected.Nodup ∧ s.workerTasks.Nodup ∧ s.servicePolling.Nodup := by
  induction h with
  | init => exact ⟨List.nodup_nil, List.nodup_nil, List.nodup_nil⟩
  | connect u s hs ih =>
      obtain ⟨hc, hw, hp⟩ := ih
      unfold oauth_connect
      split
      · exact ⟨hc, hw, hp⟩
      · next hu =>
          refine ⟨List.nodup_cons.mpr ⟨hu, hc⟩, hw, List.nodup_cons.mpr ⟨?_, ?_⟩⟩
          · exact hp.not_mem_erase
          · exact hp.erase u
  | disconnect u s hs ih =>
      obtain ⟨hc, hw, hp⟩ := ih
      exact ⟨hc.erase u, hw, hp⟩
  | sync s hs ih =>
      obtain ⟨hc, hw, hp⟩ := ih
      refine ⟨hc, List.Nodup.append (hw.filter _) (hc.filter _) ?_, hp⟩
      intro a ha hb
      have h1 : a ∈ s.workerTasks := (List.mem_filter.mp ha).1
      have h2 : a ∉ s.workerTasks :=
        of_decide_eq_true (List.mem_filter.mp hb).2
      exact h2 h1

/-- The reachable state after one fresh OAuth connection followed by one
supervisor resynchronization. -/
def two_pollers_state : SysState :=
  sync_user_tasks (oauth_connect sys_init ("u1"))

/-- Counterexample to claim C6: a fresh connection auto-starts a
GmailService polling task for the user, and the next supervisor sync
starts a background-worker task for the same user, so a reachable state
holds two concurrently running Gmail pollers for one user — not at most
one. -/
theorem reconnect_starts_two_pollers :
    SysReach two_pollers_state ∧
    two_pollers_state.workerTasks.count ("u1" : String)
      + two_pollers_state.servicePolling.count ("u1" : String) = 2 := by
  constructor
  · exact SysReach.sync _ (SysReach.connect ("u1") _ SysReach.init)
  · decide

/-- Claim C6, amended: within each registry a user has at most one task
(each registry is a dict keyed by user id, with guarded start), a worker
polling for a disconnected user fetches no messages (so creates no
Items), disconnecting and resyncing removes the user's background worker,
and reconnecting a disconnected user yields exactly one background worker
after the next sync and exactly one GmailService polling task — but the
two registries together can hold two live pollers for one user, which the
counterexample exhibits. -/
theorem gmail_worker_lifecycle :
    (∀ s : SysState, SysReach s → s.workerTasks.Nodup ∧ s.servicePolling.Nodup) ∧
    (∀ (s : SysState) (u : String) (unread : List GmailMessage),
        u ∉ s.connected → gmail_fetch s u unread = []) ∧
    (∀ (s : SysState) (u : String), SysReach s →
        u ∉ (sync_user_tasks (disconnect_account s u)).workerTasks) ∧
    (∀ (s : SysState) (u : String), SysReach s → u ∉ s.connected →
        (sync_user_tasks (oauth_connect s u)).workerTasks.count u = 1 ∧
        (oauth_connect s u).servicePolling.count u = 1) := by
  refine ⟨?_, ?_, ?_, ?_⟩
  · intro s hs
    exact ⟨(sys_reach_nodup s hs).2.1, (sys_reach_nodup s hs).2.2⟩
  · intro s u unread hu
    unfold gmail_fetch
    rw [if_neg hu]
  · intro s u hs
    obtain ⟨hc, hw, hp⟩ := sys_reach_nodup s hs
    intro hmem
    have hne : u ∉ s.connected.erase u := hc.not_mem_erase
    rcases List.mem_append.mp hmem with h1 | h2
    · exact hne (of_decide_eq_true (List.mem_filter.mp h1).2)
    · exact hne (List.mem_filter.mp h2).1
  · intro s u hs hu
    obtain ⟨hc, hw, hp⟩ := sys_reach_nodup s hs
    have hconn : oauth_connect s u
        = { connected := u :: s.connected
            workerTasks := s.workerTasks
            servicePolling := u :: s.servicePolling.erase u } := by
      unfold oauth_connect
      rw [if_neg hu]
    rw [hconn]
    constructor
    · show (List.count u
        (s.workerTasks.filter (fun v => decide (v ∈ u :: s.connected))
          ++ (u :: s.connected).filter (fun v => decide (v ∉ s.workerTasks)))) = 1
      rw [List.count_append]
      by_cases hmem : u ∈ s.workerTasks
      · have h1 : List.count u
            (s.workerTasks.filter (fun v => decide (v ∈ u :: s.connected))) = 1 := by
          rw [List.count_filter (by simp)]
          exact List.count_eq_one_of_mem hw hmem
        have h2 : List.count u
            ((u :: s.connected).filter (fun v => decide (v ∉ s.workerTasks))) = 0 := by
          apply List.count_eq_zero_of_not_mem
          intro hin
          exact (of_decide_eq_true (List.mem_filter.mp hin).2) hmem
        omega
      · have h1 : List.count u
            (s.workerTasks.filter (fun v => decide (v ∈ u :: s.connected))) = 0 := by
          apply List.count_eq_zero_of_not_mem
          intro hin
          exact hmem (List.mem_filter.mp hin).1
        have h2 : List.count u
            ((u :: s.connected).filter (fun v => decide (v ∉ s.workerTasks))) = 1 := by
          rw [List.count_filter (by simpa using hmem)]
          rw [List.count_cons_self]
          rw [List.count_eq_zero_of_not_mem hu]
        omega
    · show List.count u (u :: s.servicePolling.erase u) = 1
      rw [List.count_cons_self, List.count_eq_zero_of_not_mem hp.not_mem_erase]

/-- Witness for `gmail_worker_lifecycle`: from the reachable one-user
state, disconnect removes the background worker at the next sync, and a
fresh second user gets exactly one background worker after sync. -/
theorem gmail_worker_lifecycle_witness :
    SysReach (oauth_connect sys_init ("u1")) ∧
    (("u2" : String) ∉ (oauth_connect sys_init ("u1")).connected) ∧
    ((sync_user_tasks (oauth_connect (oauth_connect sys_init ("u1"))
        ("u2"))).workerTasks.count ("u2" : String) = 1) ∧
    (("u1" : String) ∉ (sync_user_tasks (disconnect_account
        (oauth_connect sys_init ("u1")) ("u1"))).workerTasks) ∧
    (gmail_fetch (disconnect_account (oauth_connect sys_init ("u1")) ("u1"))
        ("u1") [mkTextMsg ("zz") ("zz body")] = []) :=
  ⟨SysReach.connect ("u1") sys_init SysReach.init,
   by decide,
   (gmail_worker_lifecycle.2.2.2 (oauth_connect sys_init ("u1")) ("u2")
      (SysReach.connect ("u1") sys_init SysReach.init) (by decide)).1,
   gmail_worker_lifecycle.2.2.1 (oauth_connect sys_init ("u1")) ("u1")
      (SysReach.connect ("u1") sys_init SysReach.init),
   gmail_worker_lifecycle.2.1 (disconnect_account (oauth_connect sys_init ("u1")) ("u1"))
      ("u1") [mkTextMsg ("zz") ("zz body")] (by decide)⟩

/-- A stored google OAuth row with the fields the token lifecycle touches
(src/app/models.py `OAuthAccount`); times are Unix timestamps modelled as
integers. -/
structure OAuthAccountM where
  access_token : String
  refresh_token : Option String
  expires_at : Option Int
deriving Repr, DecidableEq

/-- The token endpoint response consumed by `_refresh_token_if_needed`:
`access_token` is mandatory (a missing key would raise and become a
failure outcome), `expires_in` optional
(src/app/services/gmail.py lines 354-358). -/
structure TokenData where
  access_token : String
  expires_in : Option Int
deriving Repr, DecidableEq

/-- `GmailService._refresh_token_if_needed`
(src/app/services/gmail.py lines 337-367) on a stored row: with no
refresh token it returns None (lines 339-341); a raising refresh call is
caught and returns None (lines 364-367); on success the fresh row gets
the new access token and — only when `expires_in` is present — the new
expiry `now + expires_in`, is committed, and is returned. -/
def refresh_token_if_needed (now : Int) (acct : OAuthAccountM)
    (refreshResult : Except String TokenData) : Option OAuthAccountM :=
  match acct.refresh_token with
  | none => none
  | some _ =>
      match refreshResult with
      | Except.error _ => none
      | Except.ok td =>
          some { acct with
                 access_token := td.access_token
                 expires_at :=
                   match td.expires_in with
                   | some sec => some (now + sec)
                   | none => acct.expires_at }

/-- `GmailService._get_valid_oauth_account`
(src/app/services/gmail.py lines 319-335): no stored row → None; a row
whose expiry exists and has passed (`expires_at <= utcnow()`) is sent
through the refresh; otherwise the stored row is returned as is. -/
def get_valid_oauth_account (now : Int) (stored : Option OAuthAccountM)
    (refreshResult : Except String TokenData) : Option OAuthAccountM :=
  match stored with
  | none => none
  | some acct =>
      match acct.expires_at with
      | some t =>
          if t ≤ now then refresh_token_if_needed now acct refreshResult
          else some acct
      | none => some acct

/-- The stored row after a `_get_valid_oauth_account` call:
`_refresh_token_if_needed` commits the updated row before returning it
(src/app/services/gmail.py lines 348-362); on a failed refresh nothing is
committed and the old row remains. -/
def oauth_store_after (now : Int) (stored : Option OAuthAccountM)
    (refreshResult : Except String TokenData) : Option OAuthAccountM :=
  match stored with
  | none => none
  | some acct =>
      match acct.expires_at with
      | some t =>
          if t ≤ now then
            match refresh_token_if_needed now acct refreshResult with
            | some a => some a
            | none => some acct
          else some acct
      | none => some acct

/-- Claim C7: a stored connection with a past expiry and a refresh
credential, whose refresh call succeeds with a fresh access token and a
positive `expires_in`, is returned by `get_valid_oauth_account` carrying
the newly obtained access token (differing from the stored one) and an
expiry in the future, and the same row is what the database stores after
the call; a stored connection with a past expiry and no refresh
credential yields no valid connection. -/
theorem get_valid_oauth_account_refreshes
    (now t sec : Int) (acct : OAuthAccountM) (td : TokenData) (rtok : String)
    (hexp : acct.expires_at = some t) (hpast : t ≤ now)
    (hrt : acct.refresh_token = some rtok)
    (hsec : td.expires_in = some sec) (hpos : 0 < sec)
    (hnew : td.access_token ≠ acct.access_token) :
    ((get_valid_oauth_account now (some acct) (Except.ok td)
        = some { acct with access_token := td.access_token
                           expires_at := some (now + sec) }) ∧
     ({ acct with access_token := td.access_token
                  expires_at := some (now + sec) } : OAuthAccountM).access_token
        ≠ acct.access_token ∧
     now < now + sec ∧
     oauth_store_after now (some acct) (Except.ok td)
        = get_valid_oauth_account now (some acct) (Except.ok td)) ∧
    (∀ (m t2 : Int) (a2 : OAuthAccountM) (rr : Except String TokenData),
        a2.expires_at = some t2 → t2 ≤ m → a2.refresh_token = none →
        get_valid_oauth_account m (some a2) rr = none) := by
  constructor
  · have hval : get_valid_oauth_account now (some acct) (Except.ok td)
        = some { acct with access_token := td.access_token
                           expires_at := some (now + sec) } := by
      simp only [get_valid_oauth_account, refresh_token_if_needed, hexp, hrt, hsec]
      rw [if_pos hpast]
    refine ⟨hval, by simpa using hnew, by omega, ?_⟩
    simp only [oauth_store_after, get_valid_oauth_account,
      refresh_token_if_needed, hexp, hrt, hsec]
  · intro m t2 a2 rr hexp2 hpast2 hrt2
    simp only [get_valid_oauth_account, refresh_token_if_needed, hexp2, hrt2]
    rw [if_pos hpast2]

/-- Witness for `get_valid_oauth_account_refreshes` at a concrete expired
row refreshed at time 100 with a 3600-second token. -/
theorem get_valid_oauth_account_refreshes_witness :
    (get_valid_oauth_account 100
        (some { access_token := ("old" : String), refresh_token := some ("r7" : String)
                expires_at := some 0 })
        (Except.ok { access_token := ("new" : String), expires_in := some 3600 })
      = some { access_token := ("new" : String), refresh_token := some ("r7" : String)
               expires_at := some 3700 }) ∧
    (get_valid_oauth_account 100
        (some { access_token := ("old" : String), refresh_token := none
                expires_at := some 0 })
        (Except.ok { access_token := ("new" : String), expires_in := some 3600 })
      = none) := by
  constructor
  · have h := (get_valid_oauth_account_refreshes 100 0 3600
        { access_token := ("old" : String), refresh_token := some ("r7" : String)
          expires_at := some 0 }
        { access_token := ("new" : String), expires_in := some 3600 } ("r7" : String)
        rfl (by norm_num) rfl rfl (by norm_num) (by decide)).1.1
    simpa using h
  · exact (get_valid_oauth_account_refreshes 100 0 3600
        { access_token := ("old" : String), refresh_token := some ("r7" : String)
          expires_at := some 0 }
        { access_token := ("new" : String), expires_in := some 3600 } ("r7" : String)
        rfl (by norm_num) rfl rfl (by norm_num) (by decide)).2 100 0
        { access_token := ("old" : String), refresh_token := none, expires_at := some 0 }
        (Except.ok { access_token := ("new" : String), expires_in := some 3600 })
        rfl (by norm_num) rfl

/-- The in-memory Telegram client bookkeeping of
`TelegramClientService` (src/app/services/telegram.py line 22):
`clients` models the `self.clients` dict as session key → client object
id, `live` the connected (not yet disconnected) client objects paired
with their owning user, and `nextId` allocates fresh client object ids. -/
structure TgState where
  clients : List (String × Nat)
  live : List (Nat × Nat)
  nextId : Nat
deriving Repr, DecidableEq

/-- The empty registry before any auth flow. -/
def tg_init : TgState :=
  { clients := [], live := [], nextId := 0 }

/-- Python dict assignment `self.clients[key] = c`: the binding for `key`
is replaced, any other binding kept. -/
def dict_insert (key : String) (c : Nat) (l : List (String × Nat)) :
    List (String × Nat) :=
  (key, c) :: l.filter (fun kv => decide (kv.1 ≠ key))

/-- The success path of `TelegramClientService.create_client_session`
(src/app/services/telegram.py lines 25-52): a fresh client is constructed
and connected, the code request is sent, and the client is stored under
the key `temp_{user_id}` by plain dict assignment.  Nothing disconnects a
client already held under that key: it merely loses its registry entry
while staying in the connected set. -/
def create_client_session (s : TgState) (u : Nat) : TgState :=
  let cid := s.nextId
  { clients := dict_insert (("temp_" : String) ++ Nat.repr u) cid s.clients
    live := (cid, u) :: s.live
    nextId := cid + 1 }

/-- How many live connection objects belong to user `u`. -/
def live_clients_of (s : TgState) (u : Nat) : Nat :=
  (s.live.filter (fun cu => decide (cu.2 = u))).length

/-- Claim C8 evaluated at the failing input: user 42 starts an auth flow
twice.  After the second `create_client_session` the user owns two live
connection objects; the registry references only the new client (id 1)
under `temp_42`, while the old client (id 0) is still connected and no
longer reachable — it was never disconnected, i.e. it leaked. -/
theorem start_auth_leaks_old_transient_client :
    live_clients_of (create_client_session (create_client_session tg_init 42) 42) 42 = 2 ∧
    (create_client_session (create_client_session tg_init 42) 42).clients
      = [(("temp_" : String) ++ Nat.repr 42, 1)] ∧
    (0, 42) ∈ (create_client_session (create_client_session tg_init 42) 42).live := by
  refine ⟨by decide, by decide, by decide⟩
